import Mathlib

/-!
Shallow embedding of the network session / transport management core of the
repository (files `bittensor/staging/transport.py`, `wsclient.py`, `netman.py`,
`sub_subtensor.py`, `event_hooks.py`, `socket_overload.py`), together with
theorems settling the specification claims about it.

Conventions of the embedding:
* Python exceptions are modelled with `Except` or with explicit outcome
  inductives; machine integers are `Nat`/`Int`; float delays are `ℚ`.
* Stateful methods become pure functions on explicit state records.
* Nondeterministic inputs of the environment (socket probe results, websocket
  attempt outcomes, wall-clock readings, freshly generated request tokens) are
  passed in as function parameters.
-/

namespace Transport

/-- Error classification of `transport.py`: `RetryableError` vs `FatalError`
(both subclasses of `TransportError`). -/
inductive ErrKind where
  | retryable
  | fatal
deriving DecidableEq, Repr

/-- Outcome of one raw send attempt inside `_send_with_retries`
(`await self.connection.send(json.dumps(data))` guarded by
`asyncio.timeout`).  `retryableExc` stands for the exception classes the
code catches and retries — `WebSocketException`, `TimeoutError`,
`WebSocketProtocolError` —, `fatalExc` for any other raised exception
(`except Exception`), `ok` for a successful send. -/
inductive AttemptOutcome where
  | ok
  | retryableExc
  | fatalExc
deriving DecidableEq, Repr

/-- Result of `WebSocketTransport.send`: either the data went out, or a
`RetryableError` was raised after retries were exhausted, or a `FatalError`
was raised. -/
inductive SendResult where
  | sent
  | retryableError
  | fatalError
deriving DecidableEq, Repr

/-- Trace of a `_send_with_retries` call: final result, how many times the
raw send was attempted, and the successive `asyncio.sleep` delays (each is
`retry_backoff ** retries`). -/
structure SendTrace where
  result : SendResult
  attempts : Nat
  sleeps : List ℚ
deriving DecidableEq, Repr

/-- `WebSocketTransport._send_with_retries(data, retries)`
(`transport.py` lines 190–206), with the recursion depth tracked
structurally: at recursion depth `d` the Python variable `retries` equals
`d`, and `remaining = max_retries - d`, so the source guard
`retries < self.max_retries` is exactly `remaining ≠ 0`.
`att d` is the outcome of the raw send attempt made at depth `d`. -/
def send_with_retries_aux (backoff : ℚ) (att : Nat → AttemptOutcome) :
    Nat → Nat → SendTrace
  | retries, remaining =>
    match att retries with
    | .ok => { result := .sent, attempts := 1, sleeps := [] }
    | .fatalExc => { result := .fatalError, attempts := 1, sleeps := [] }
    | .retryableExc =>
      match remaining with
      | 0 => { result := .retryableError, attempts := 1, sleeps := [] }
      | r + 1 =>
        let rest := send_with_retries_aux backoff att (retries + 1) r
        { result := rest.result
          attempts := rest.attempts + 1
          sleeps := backoff ^ retries :: rest.sleeps }

/-- `WebSocketTransport.send(data)` = `_send_with_retries(data)` with
`retries = 0`, for a transport constructed with the given `max_retries`
and `retry_backoff`. -/
def send_with_retries (maxRetries : Nat) (backoff : ℚ)
    (att : Nat → AttemptOutcome) : SendTrace :=
  send_with_retries_aux backoff att 0 maxRetries

/-- Trace of `AsyncWebsocketClient.connect` (`wsclient.py` lines 22–35):
whether a connection was established, how many `websockets.connect`
attempts were made, and the `asyncio.sleep(self.retry_interval)` delays. -/
structure ConnectTrace where
  connected : Bool
  attempts : Nat
  sleeps : List ℚ
deriving DecidableEq, Repr

/-- The `while retry_count < self.max_retries` loop of
`AsyncWebsocketClient.connect`, tracked structurally: at loop entry with
counter `rc` the fuel is `remaining = max_retries - rc`, so the loop guard
is exactly `remaining ≠ 0`.  `att rc = true` means the attempt with counter
value `rc` connects; on failure the counter is incremented and the loop
sleeps `retry_interval`. -/
def ws_connect_aux (retryInterval : ℚ) (att : Nat → Bool) :
    Nat → Nat → ConnectTrace
  | _, 0 => { connected := false, attempts := 0, sleeps := [] }
  | rc, r + 1 =>
    if att rc then { connected := true, attempts := 1, sleeps := [] }
    else
      let rest := ws_connect_aux retryInterval att (rc + 1) r
      { connected := rest.connected
        attempts := rest.attempts + 1
        sleeps := retryInterval :: rest.sleeps }

/-- `AsyncWebsocketClient.connect()`.  When it ends with
`connected = false` the source raises
`ConnectionError("Unable to connect to websocket server.")`. -/
def ws_connect (maxRetries : Nat) (retryInterval : ℚ) (att : Nat → Bool) :
    ConnectTrace :=
  ws_connect_aux retryInterval att 0 maxRetries

/-- Outcome of one `await self.connection.recv()` in
`WebSocketTransport.receive` (`transport.py` lines 208–222): a message
arrives, the peer closes cleanly (`ConnectionClosedOK`), the
`asyncio.timeout` window expires (`TimeoutError`), the peer closes
abnormally (`ConnectionClosedError`), or the socket errors (`OSError`). -/
inductive RecvOutcome where
  | msg (m : String)
  | closedOk
  | timeoutExpired
  | closedError
  | osError
deriving DecidableEq, Repr

/-- `WebSocketTransport.receive` (`transport.py` lines 208–222).  Every
exceptional branch is caught and merely logged, so the method falls off the
end and returns `None`; only a received message is parsed and returned. -/
def ws_receive : RecvOutcome → Except ErrKind (Option String)
  | .msg m => .ok (some m)
  | .closedOk => .ok none
  | .timeoutExpired => .ok none
  | .closedError => .ok none
  | .osError => .ok none

end Transport

namespace NetworkManager

/-- A JSON value as it flows through `NetworkManager` (`netman.py`).
`wrapped` is the envelope built by `send_data`:
`{"request_id": ..., "data": ..., "topic": ..., "callback": ...}` —
the `data` field may itself hold a previously wrapped message, which is why
the type is recursive.  `raw` stands for any other JSON payload. -/
inductive MsgVal where
  | raw (s : String)
  | wrapped (requestId : String) (data : MsgVal) (topic : String)
      (callbackName : Option Nat)
deriving DecidableEq, Repr

/-- Writing file `f"{direction}_{t}.json"`: a Python directory maps each
name to at most one file, so `json.dump` on an existing name overwrites the
previous content.  The storage directory is an association list from the
integer timestamp in the name to the file's content (one direction only). -/
def persist_data (storage : List (Nat × MsgVal)) (t : Nat) (m : MsgVal) :
    List (Nat × MsgVal) :=
  match storage with
  | [] => [(t, m)]
  | (t', m') :: rest =>
    if t' = t then (t', m) :: rest else (t', m') :: persist_data rest t m

/-- `NetworkManager._flush_queue_to_disk("send")` (`netman.py` lines
320–324): pops every queued item in FIFO order and calls `_persist_data`
on each.  `clock k` is the value of `int(self.loop.time())` observed at the
`k`-th `_persist_data` call of the run. -/
def flush_queue_to_disk (clock : Nat → Nat) (k : Nat) :
    List MsgVal → List (Nat × MsgVal) → List (Nat × MsgVal)
  | [], storage => storage
  | m :: rest, storage =>
    flush_queue_to_disk clock (k + 1) rest (persist_data storage (clock k) m)

/-- Python dict assignment `self.callbacks[request_id] = callback`
(callbacks are identified by a numeric token). -/
def set_callback (cbs : List (String × Nat)) (rid : String) (c : Nat) :
    List (String × Nat) :=
  match cbs with
  | [] => [(rid, c)]
  | (r', c') :: rest =>
    if r' = rid then (r', c) :: rest else (r', c') :: set_callback rest rid c

/-- The state of a `NetworkManager` that the send path touches: the bounded
in-memory send queue (capacity `queueCap`, from `Queue(maxsize=queue_size)`),
the `callbacks` dict, the overflow storage directory (send direction), and
the `accept_data` flag. -/
structure NMState where
  sendQueue : List MsgVal
  queueCap : Nat
  callbacks : List (String × Nat)
  storage : List (Nat × MsgVal)
  acceptData : Bool
deriving DecidableEq, Repr

/-- `NetworkManager.send_data(data, topic, callback)` (`netman.py` lines
118–168).  `reqId` is the token returned by `generate_request_token()` for
this call; `clock`/`k` time-stamp the `_persist_data` calls as in
`flush_queue_to_disk`.  Branches, in source order: when `accept_data` is
false the message is persisted directly; when the queue is not full the
message is enqueued and the callback (if any) registered; when the queue is
full the whole queue is flushed to disk, the new message persisted, and
`accept_data` set to `False` (no callback is registered on this branch). -/
def send_data (clock : Nat → Nat) (k : Nat) (st : NMState) (reqId : String)
    (data : MsgVal) (topic : String) (cb : Option Nat) : NMState :=
  let message := MsgVal.wrapped reqId data topic cb
  if !st.acceptData then
    { st with storage := persist_data st.storage (clock k) message }
  else if st.sendQueue.length < st.queueCap then
    { st with
        sendQueue := st.sendQueue ++ [message]
        callbacks :=
          match cb with
          | some c => set_callback st.callbacks reqId c
          | none => st.callbacks }
  else
    let storage1 := flush_queue_to_disk clock k st.sendQueue st.storage
    { st with
        sendQueue := []
        storage :=
          persist_data storage1 (clock (k + st.sendQueue.length)) message
        acceptData := false }

/-- One iteration of `NetworkManager._process_send_queue` (`netman.py`
lines 236–254).  `send m` is the classified outcome of
`await self.transport.send(data)`; `t` is `int(self.loop.time())` if the
iteration persists.  Returns the new state and the delay passed to
`_schedule_async_task` for the next iteration (0 after processing an item,
1 when the queue was empty). -/
def process_send_queue_step (send : MsgVal → Transport.SendResult) (t : Nat)
    (st : NMState) : NMState × ℚ :=
  match st.sendQueue with
  | [] => (st, 1)
  | m :: rest =>
    let st' := { st with sendQueue := rest }
    match send m with
    | .sent => (st', 0)
    | .retryableError =>
      ({ st' with storage := persist_data st'.storage t m }, 0)
    | .fatalError => (st', 0)

/-- Insertion of one directory entry into a list sorted by ascending
timestamp — used to model
`sorted(self.storage_dir.glob(f"send_*.json"), key=os.path.getmtime)`. -/
def insert_by_time (p : Nat × MsgVal) :
    List (Nat × MsgVal) → List (Nat × MsgVal)
  | [] => [p]
  | q :: rest =>
    if p.1 ≤ q.1 then p :: q :: rest else q :: insert_by_time p rest

/-- The sorted snapshot of the overflow directory taken by
`_process_persistent_data` before its loop. -/
def sort_by_time : List (Nat × MsgVal) → List (Nat × MsgVal)
  | [] => []
  | p :: rest => insert_by_time p (sort_by_time rest)

/-- `os.remove` of the overflow file whose name carries timestamp `t`. -/
def remove_file (storage : List (Nat × MsgVal)) (t : Nat) :
    List (Nat × MsgVal) :=
  storage.filter (fun p => p.1 ≠ t)

/-- The loop body of `NetworkManager._process_persistent_data("send")`
(`netman.py` lines 326–337) over the sorted snapshot: each file's content
is fed back through `send_data(data)` (fresh token `ids i`, default topic
"general", no callback) and the file is then removed.  `clock`/`k` advance
one tick per `_persist_data` call as before. -/
def process_persistent_data_go (ids : Nat → String) (clock : Nat → Nat) :
    Nat → Nat → List (Nat × MsgVal) → NMState → NMState
  | _, _, [], st => st
  | k, i, (t, m) :: rest, st =>
    let st1 := send_data clock k st (ids i) m "general" none
    let st2 := { st1 with storage := remove_file st1.storage t }
    process_persistent_data_go ids clock (k + 1) (i + 1) rest st2

/-- `NetworkManager._process_persistent_data("send")`. -/
def process_persistent_data (ids : Nat → String) (clock : Nat → Nat)
    (k : Nat) (st : NMState) : NMState :=
  process_persistent_data_go ids clock k 0 (sort_by_time st.storage) st

/-- Result of `sock.connect_ex((host, port))`: the C-level `connect` error
code (`0` on success), or the `socket.gaierror` the code catches when the
host does not resolve. -/
inductive ProbeOutcome where
  | code (c : Nat)
  | gaierror
deriving DecidableEq, Repr

/-- Calling a plain Python function stored as a class attribute through an
instance: the descriptor protocol prepends `self`, and the call raises
`TypeError` unless the argument count matches the function's parameter
count. -/
def call_py_function (paramCount argCount : Nat) : Except String Unit :=
  if argCount = paramCount then .ok () else .error "TypeError"

/-- `socket_overload.py` line 30 executes
`socket.socket.settimeout = settimeout`, installing the zero-parameter
factory `def settimeout():` itself (not the wrapper it returns) as the
`settimeout` method of the patched socket class that `netman.py` imports. -/
def patched_settimeout_param_count : Nat := 0

/-- `NetworkManager.check_network_connectivity(endpoints)` (`netman.py`
lines 91–114) as executed against the patched socket module: for each
endpoint it first runs `sock.settimeout(1)` — a bound-method call passing
2 arguments (`self` and `1`) to the installed 0-parameter function — and
then probes with `connect_ex`, returning `False` on a nonzero code or a
caught `gaierror`, `True` once all endpoints passed. -/
def check_network_connectivity (probe : String × Nat → ProbeOutcome) :
    List (String × Nat) → Except String Bool
  | [] => .ok true
  | ep :: rest =>
    match call_py_function patched_settimeout_param_count 2 with
    | .error e => .error e
    | .ok _ =>
      match probe ep with
      | .code c =>
        if c ≠ 0 then .ok false else check_network_connectivity probe rest
      | .gaierror => .ok false

/-- An inbound message as `NetworkManager.receive_data` sees it:
`data.get('id')` and `data.get('topic', None)`. -/
structure InMsg where
  msgId : Option String
  topic : Option String
deriving DecidableEq, Repr

/-- The receive-side registries of a `NetworkManager`: the `callbacks`
dict (request id → callback token) and the `subscriptions` dict
(topic → list of callback tokens). -/
structure RecvState where
  callbacks : List (String × Nat)
  subscriptions : List (String × List Nat)
deriving DecidableEq, Repr

/-- `NetworkManager.receive_data` (`netman.py` lines 170–205) processing
one dequeued message: if the message's id has a registered callback it is
triggered with the message; if the message's topic has subscribers,
`_notify_subscribers` triggers each subscribed callback in list order.
Neither branch mutates `callbacks` or `subscriptions`; the returned list
records the triggered callbacks in order. -/
def receive_data (st : RecvState) (m : InMsg) : RecvState × List Nat :=
  let cbInvoked :=
    match m.msgId with
    | some rid =>
      match st.callbacks.lookup rid with
      | some c => [c]
      | none => []
    | none => []
  let subInvoked :=
    match m.topic with
    | some t =>
      match st.subscriptions.lookup t with
      | some cs => cs
      | none => []
    | none => []
  (st, cbInvoked ++ subInvoked)

/-- Processing a sequence of inbound messages through `receive_data`, in
arrival order, threading the state and concatenating the callback
invocations. -/
def process_messages (st : RecvState) : List InMsg → RecvState × List Nat
  | [] => (st, [])
  | m :: rest =>
    let p := receive_data st m
    let q := process_messages p.1 rest
    (q.1, p.2 ++ q.2)

end NetworkManager

namespace EventHook

/-- The composite key `(topic, request_id, group)` of
`EventHook._listeners` (`event_hooks.py`). -/
abbrev Key := String × String × String

/-- `EventHook._listeners`: a dict from composite key to the list of
registered listeners, in key-insertion order; listeners are identified by
numeric tokens. -/
abbrev Table := List (Key × List Nat)

/-- Dict lookup `self._listeners[key]` / `key in self._listeners`. -/
def get_key (xs : Table) (k : Key) : Option (List Nat) :=
  match xs with
  | [] => none
  | (k', ls) :: rest => if k' = k then some ls else get_key rest k

/-- `EventHook.subscribe(listener, topic, request_id, group)`
(`event_hooks.py` lines 37–51): create the key with an empty list if
absent (a fresh dict key is appended last), then append the listener. -/
def subscribe (xs : Table) (l : Nat) (k : Key) : Table :=
  match xs with
  | [] => [(k, [l])]
  | (k', ls) :: rest =>
    if k' = k then (k', ls ++ [l]) :: rest
    else (k', ls) :: subscribe rest l k

/-- Python `list.remove(x)`: deletes the first occurrence of `x`.
(The `ValueError` raised when `x` is absent is not modelled; the claims
only exercise removal after registration.) -/
def remove_first (l : Nat) : List Nat → List Nat
  | [] => []
  | x :: rest => if x = l then rest else x :: remove_first l rest

/-- `EventHook.unsubscribe(listener, topic, request_id, group)`
(`event_hooks.py` lines 53–68): if the key exists, remove the first
occurrence of the listener from its list, and delete the key when the
list becomes empty. -/
def unsubscribe (xs : Table) (l : Nat) (k : Key) : Table :=
  match xs with
  | [] => []
  | (k', ls) :: rest =>
    if k' = k then
      let ls' := remove_first l ls
      if ls' = [] then rest else (k', ls') :: rest
    else (k', ls) :: unsubscribe rest l k

/-- `EventHook._get_listeners(topic, request_id, group)` (`event_hooks.py`
lines 14–35): collect, in table order, the listener lists of every key
whose components each equal the argument or are the literal `"*"` on the
subscription side. -/
def get_listeners (xs : Table) (topic reqId group : String) : List Nat :=
  match xs with
  | [] => []
  | ((t, r, g), ls) :: rest =>
    if (t = topic ∨ t = "*") ∧ (r = reqId ∨ r = "*") ∧ (g = group ∨ g = "*")
    then ls ++ get_listeners rest topic reqId group
    else get_listeners rest topic reqId group

/-- Running the listener loop of `EventHook.notify` over the matched
listeners: `beh l` is what calling listener `l` does.  The loop body has no
exception handling, so the first listener that raises aborts the loop and
the exception propagates out of `notify`.  Returns the listeners that were
actually called (in order, including the raiser) and the escaping
exception, if any. -/
def notify_run (beh : Nat → Except String Unit) :
    List Nat → List Nat × Option String
  | [] => ([], none)
  | l :: rest =>
    match beh l with
    | .ok _ =>
      let p := notify_run beh rest
      (l :: p.1, p.2)
    | .error s => ([l], some s)

/-- `EventHook.notify(topic, *args, request_id, group)` (`event_hooks.py`
lines 70–84). -/
def notify (beh : Nat → Except String Unit) (xs : Table)
    (topic reqId group : String) : List Nat × Option String :=
  notify_run beh (get_listeners xs topic reqId group)

end EventHook

namespace RpcRequest

/-- A JSON-RPC message as `SubstrateProxyInterface.rpc_request`
(`sub_subtensor.py` lines 486–592) inspects it: an optional top-level
`id`, whether an `error` field is present, the `result` value (read as the
subscription id when a result handler is installed), and — when a `params`
field is present — the value of `params["subscription"]` (`none` for JSON
`null`). -/
structure RMsg where
  msgId : Option Nat
  hasError : Bool
  result : Nat
  params : Option (Option Nat)
deriving DecidableEq, Repr

/-- The loop state of `rpc_request`: the `__rpc_message_queue`, the local
variables `subscription_id`, `update_nr` and `json_body`, and the trace of
`result_handler` invocations (message passed, `update_nr` passed). -/
structure LoopState where
  queue : List RMsg
  subId : Option Nat
  updateNr : Nat
  jsonBody : Option RMsg
  invocations : List (RMsg × Nat)
deriving DecidableEq, Repr

/-- First `for message, remove_message in list_remove_iter(...)` pass of
the `while json_body is None` loop: every queued message whose `id` equals
the request id is removed; an `error` member raises
`SubstrateRequestException` (modelled as `Except.error` carrying the
message); with a result handler installed the message's `result` becomes
the subscription id, otherwise the message becomes `json_body`.
Returns the surviving queue and the updated `subscription_id` and
`json_body`. -/
def match_id_pass (reqId : Nat) (hasHandler : Bool) :
    List RMsg → Option Nat → Option RMsg →
    Except RMsg (List RMsg × Option Nat × Option RMsg)
  | [], subId, jsonBody => .ok ([], subId, jsonBody)
  | m :: rest, subId, jsonBody =>
    if m.msgId = some reqId then
      if m.hasError then .error m
      else if hasHandler then
        match_id_pass reqId hasHandler rest (some m.result) jsonBody
      else match_id_pass reqId hasHandler rest subId (some m)
    else
      match match_id_pass reqId hasHandler rest subId jsonBody with
      | .error e => .error e
      | .ok (q, s, j) => .ok (m :: q, s, j)

/-- Second pass of the loop (`# Process subscription updates`): every
queued message with a `params` field whose `subscription` value equals the
current `subscription_id` is removed and fed to the result handler along
with `update_nr`; a non-`None` handler return value becomes `json_body`;
`update_nr` is incremented per invocation.  Returns the surviving queue,
the new `update_nr` and `json_body`, and the extended invocation trace. -/
def sub_pass (handler : RMsg → Nat → Option Nat → Option RMsg)
    (subId : Option Nat) :
    List RMsg → Nat → Option RMsg → List (RMsg × Nat) →
    List RMsg × Nat × Option RMsg × List (RMsg × Nat)
  | [], nr, jsonBody, inv => ([], nr, jsonBody, inv)
  | m :: rest, nr, jsonBody, inv =>
    match m.params with
    | some s =>
      if s = subId then
        let r := handler m nr subId
        let jsonBody' := match r with | some v => some v | none => jsonBody
        sub_pass handler subId rest (nr + 1) jsonBody' (inv ++ [(m, nr)])
      else
        let p := sub_pass handler subId rest nr jsonBody inv
        (m :: p.1, p.2)
    | none =>
      let p := sub_pass handler subId rest nr jsonBody inv
      (m :: p.1, p.2)

/-- One execution of the `while json_body is None` loop body of
`rpc_request` (`sub_subtensor.py` lines 532–569), up to the point where the
loop would read another websocket message: the id-matching pass followed by
the subscription-update pass, yielding the updated local state (or the
raised `SubstrateRequestException`). -/
def rpc_iteration (reqId : Nat) (hasHandler : Bool)
    (handler : RMsg → Nat → Option Nat → Option RMsg) (st : LoopState) :
    Except RMsg LoopState :=
  match match_id_pass reqId hasHandler st.queue st.subId st.jsonBody with
  | .error e => .error e
  | .ok (q1, s1, j1) =>
    match sub_pass handler s1 q1 st.updateNr j1 st.invocations with
    | (q2, nr2, j2, inv2) =>
      .ok { queue := q2, subId := s1, updateNr := nr2, jsonBody := j2
            invocations := inv2 }

/-- The `while json_body is None` loop of `rpc_request` (`sub_subtensor.py`
lines 528–573): run both passes; exit with the state once `json_body` is
set; otherwise append the next message read from the websocket to the
queue and iterate.  `incoming` supplies the successive
`self.websocket.recv()` results; the model returns the post-pass state
when that supply is exhausted, where the source would block on the
socket. -/
def rpc_loop (reqId : Nat) (hasHandler : Bool)
    (handler : RMsg → Nat → Option Nat → Option RMsg) :
    List RMsg → LoopState → Except RMsg LoopState
  | [], st => rpc_iteration reqId hasHandler handler st
  | m :: rest, st =>
    match rpc_iteration reqId hasHandler handler st with
    | .error e => .error e
    | .ok st' =>
      match st'.jsonBody with
      | some _ => .ok st'
      | none =>
        rpc_loop reqId hasHandler handler rest
          { st' with queue := st'.queue ++ [m] }

/-- The initial loop state of an `rpc_request` call: `update_nr = 0`,
`json_body = None`, `subscription_id = None`, no invocations yet, and the
message queue as inherited from earlier traffic. -/
def init_state (queue : List RMsg) : LoopState :=
  { queue := queue, subId := none, updateNr := 0, jsonBody := none
    invocations := [] }

/-- A server response that answers request `reqId` with subscription handle
`sid` in its `result` field. -/
def subscribe_reply (reqId sid : Nat) : RMsg :=
  { msgId := some reqId, hasError := false, result := sid, params := none }

/-- A subscription push-message tagged `params.subscription = sid`. -/
def push_msg (sid : Nat) : RMsg :=
  { msgId := none, hasError := false, result := 0, params := some (some sid) }

/-- A result handler that never returns a terminal value (a pure streaming
subscription consumer). -/
def streaming_handler : RMsg → Nat → Option Nat → Option RMsg :=
  fun _ _ _ => none

end RpcRequest

namespace Transport

/-- Helper: with every attempt failing retryably, `_send_with_retries`
starting at depth `r` with fuel `n` makes `n + 1` attempts, sleeps
`backoff ^ r, …, backoff ^ (r + n - 1)`, and ends in `RetryableError`. -/
theorem send_aux_all_retryable (b : ℚ) (att : Nat → AttemptOutcome)
    (h : ∀ k, att k = AttemptOutcome.retryableExc) :
    ∀ n r, send_with_retries_aux b att r n =
      { result := .retryableError, attempts := n + 1,
        sleeps := (List.range n).map (fun j => b ^ (r + j)) } := by
  intro n
  induction n with
  | zero => intro r; simp [send_with_retries_aux, h r]
  | succ n ih =>
    intro r
    simp only [send_with_retries_aux, h r]
    rw [ih (r + 1)]
    simp only [SendTrace.mk.injEq, true_and]
    rw [List.range_succ_eq_map, List.map_cons, List.map_map]
    simp only [Nat.add_zero, List.cons.injEq, true_and]
    apply List.map_congr_left
    intro j _
    simp only [Function.comp_apply]
    congr 1
    omega

/-- Helper: the successive backoff delays are non-decreasing whenever the
backoff factor is at least 1. -/
theorem chain_le_map_pow (b : ℚ) (hb : 1 ≤ b) (n r : Nat) :
    List.Chain' (· ≤ ·) ((List.range n).map (fun j => b ^ (r + j))) := by
  apply List.Pairwise.chain'
  apply (List.pairwise_map).2
  exact (List.pairwise_lt_range n).imp
    (fun hab => pow_le_pow_right₀ hb (by omega))

/-- Helper: with every attempt failing, `AsyncWebsocketClient.connect`
starting at counter `r` with fuel `n` makes exactly `n` attempts and sleeps
the constant `retry_interval` between them. -/
theorem ws_connect_aux_all_fail (ri : ℚ) (att : Nat → Bool)
    (h : ∀ k, att k = false) :
    ∀ n r, ws_connect_aux ri att r n =
      { connected := false, attempts := n, sleeps := List.replicate n ri } := by
  intro n
  induction n with
  | zero => intro r; simp [ws_connect_aux]
  | succ n ih =>
    intro r
    simp [ws_connect_aux, h r, ih (r + 1), List.replicate_succ]

/-- Helper: a constant delay list is (weakly) non-decreasing. -/
theorem chain_le_replicate (n : Nat) (q : ℚ) :
    List.Chain' (· ≤ ·) (List.replicate n q) := by
  induction n with
  | zero => simp
  | succ n ih =>
    cases n with
    | zero => simp
    | succ m =>
      rw [List.replicate_succ, List.replicate_succ, List.chain'_cons]
      rw [List.replicate_succ] at ih
      exact ⟨le_refl q, ih⟩

/-- C4 counterexample: a `WebSocketTransport` with `max_retries = 1` whose
transport always fails retryably performs 2 raw send attempts, not the
claimed `max_retries = 1`: `_send_with_retries` retries `max_retries`
times after the initial attempt, so `max_retries + 1` attempts happen. -/
theorem send_retry_overshoots_max_retries :
    (send_with_retries 1 (3 / 2) (fun _ => .retryableExc)).attempts = 2 ∧
    (send_with_retries 1 (3 / 2) (fun _ => .retryableExc)).attempts ≠ 1 := by
  decide

/-- C4 (amended): with a transport that always fails retryably,
`WebSocketTransport.send` makes exactly `max_retries + 1` attempts (one
initial attempt plus `max_retries` retries) and then raises
`RetryableError`, sleeping `retry_backoff ^ k` before retry `k`, delays
non-decreasing whenever `retry_backoff ≥ 1`; and
`AsyncWebsocketClient.connect` with an always-failing socket makes exactly
`max_retries` attempts and ends unconnected (raising `ConnectionError`),
with constant — hence non-decreasing — delays between attempts. -/
theorem retry_bound (mr : Nat) (b : ℚ) (att : Nat → AttemptOutcome)
    (ri : ℚ) (catt : Nat → Bool)
    (hatt : ∀ k, att k = AttemptOutcome.retryableExc) (hb : 1 ≤ b)
    (hcatt : ∀ k, catt k = false) :
    (send_with_retries mr b att).result = .retryableError ∧
    (send_with_retries mr b att).attempts = mr + 1 ∧
    (send_with_retries mr b att).sleeps =
      (List.range mr).map (fun j => b ^ j) ∧
    List.Chain' (· ≤ ·) (send_with_retries mr b att).sleeps ∧
    (ws_connect mr ri catt).connected = false ∧
    (ws_connect mr ri catt).attempts = mr ∧
    List.Chain' (· ≤ ·) (ws_connect mr ri catt).sleeps := by
  have hs := send_aux_all_retryable b att hatt mr 0
  have hc := ws_connect_aux_all_fail ri catt hcatt mr 0
  rw [send_with_retries, hs, ws_connect, hc]
  refine ⟨rfl, rfl, by simp, ?_, rfl, rfl, chain_le_replicate mr ri⟩
  simpa using chain_le_map_pow b hb mr 0

/-- C4 witness: the amended bound evaluated at `max_retries = 2`,
`retry_backoff = 3/2`, `retry_interval = 5`. -/
theorem retry_bound_witness :
    (send_with_retries 2 (3 / 2) (fun _ => .retryableExc)).result =
      .retryableError ∧
    (send_with_retries 2 (3 / 2) (fun _ => .retryableExc)).attempts = 2 + 1 ∧
    (send_with_retries 2 (3 / 2) (fun _ => .retryableExc)).sleeps =
      (List.range 2).map (fun j => (3 / 2 : ℚ) ^ j) ∧
    List.Chain' (· ≤ ·)
      (send_with_retries 2 (3 / 2) (fun _ => .retryableExc)).sleeps ∧
    (ws_connect 2 5 (fun _ => false)).connected = false ∧
    (ws_connect 2 5 (fun _ => false)).attempts = 2 ∧
    List.Chain' (· ≤ ·) (ws_connect 2 5 (fun _ => false)).sleeps :=
  retry_bound 2 (3 / 2) (fun _ => .retryableExc) 5 (fun _ => false)
    (fun _ => rfl) (by norm_num) (fun _ => rfl)

/-- C9 counterexample: `WebSocketTransport.receive` does not raise
`RetryableError` on a receive timeout or on an abnormal remote close — both
exceptions are caught, logged, and turned into a silent `None` return. -/
theorem receive_swallows_errors :
    ws_receive .timeoutExpired = .ok none ∧
    ws_receive .closedError = .ok none ∧
    ws_receive .timeoutExpired ≠ .error .retryable ∧
    ws_receive .closedError ≠ .error .retryable :=
  ⟨rfl, rfl, fun h => Except.noConfusion h, fun h => Except.noConfusion h⟩

/-- C9 (amended): `WebSocketTransport.receive` never raises at all: every
outcome returns normally, with timeout, abnormal close and clean close all
yielding the same non-error `None` result, and only an arriving message
yielding data.  The claimed distinction (RetryableError on timeout and on
abnormal close, end-of-stream only on clean close) is absent from the
code. -/
theorem receive_total_none_on_error :
    (∀ o, ∃ v, ws_receive o = .ok v) ∧
    ws_receive .timeoutExpired = .ok none ∧
    ws_receive .closedError = .ok none ∧
    ws_receive .closedOk = .ok none ∧
    ∀ m, ws_receive (.msg m) = .ok (some m) := by
  refine ⟨fun o => ?_, rfl, rfl, rfl, fun m => rfl⟩
  cases o <;> exact ⟨_, rfl⟩

end Transport

namespace Transport

/-- Helper: a raw attempt that raises a non-retryable exception is re-raised
as `FatalError` at once — one attempt, no sleep, regardless of the retry
budget. -/
theorem send_aux_fatal_first (b : ℚ) (att : Nat → AttemptOutcome) (r n : Nat)
    (h : att r = AttemptOutcome.fatalExc) :
    send_with_retries_aux b att r n =
      { result := .fatalError, attempts := 1, sleeps := [] } := by
  cases n with
  | zero => simp [send_with_retries_aux, h]
  | succ n => simp [send_with_retries_aux, h]

end Transport

namespace NetworkManager

/-- C1 (code bug): `_flush_queue_to_disk` names every file
`send_{int(self.loop.time())}.json`; two items flushed within the same
wall-clock second therefore share one file name, and the second
`json.dump` destroys the first.  Flushing the queue `[m1, m2]` while the
clock reads 100 throughout leaves a single file holding only `m2`: the
first-enqueued message is gone, so no replay can present the transport
with the messages in enqueue order. -/
theorem flush_same_second_loses_messages :
    flush_queue_to_disk (fun _ => 100) 0 [.raw "m1", .raw "m2"] []
      = [(100, .raw "m2")] ∧
    ∀ p ∈ flush_queue_to_disk (fun _ => 100) 0 [.raw "m1", .raw "m2"] [],
      p.2 ≠ .raw "m1" := by
  decide

/-- C5: error classification of the send path.  A first attempt that
raises a non-retryable exception is surfaced as `FatalError` immediately —
one attempt, no backoff sleep, no retry.  In the
`_process_send_queue` loop, a `RetryableError` from the transport persists
the dequeued item to overflow storage (it is not dropped) and the loop
reschedules itself; a `FatalError` drops the item without persisting and
the loop likewise continues. -/
theorem send_error_classification
    (mr : Nat) (b : ℚ) (att : Nat → Transport.AttemptOutcome)
    (send : MsgVal → Transport.SendResult) (t1 t2 : Nat)
    (st1 st2 : NMState) (m1 m2 : MsgVal) (r1 r2 : List MsgVal)
    (hatt : att 0 = Transport.AttemptOutcome.fatalExc)
    (hq1 : st1.sendQueue = m1 :: r1)
    (hm1 : send m1 = Transport.SendResult.retryableError)
    (hq2 : st2.sendQueue = m2 :: r2)
    (hm2 : send m2 = Transport.SendResult.fatalError) :
    Transport.send_with_retries mr b att =
      { result := .fatalError, attempts := 1, sleeps := [] } ∧
    process_send_queue_step send t1 st1 =
      ({ st1 with sendQueue := r1,
                  storage := persist_data st1.storage t1 m1 }, 0) ∧
    process_send_queue_step send t2 st2 =
      ({ st2 with sendQueue := r2 }, 0) := by
  refine ⟨?_, ?_, ?_⟩
  · rw [Transport.send_with_retries]
    exact Transport.send_aux_fatal_first b att 0 mr hatt
  · simp [process_send_queue_step, hq1, hm1]
  · simp [process_send_queue_step, hq2, hm2]

/-- C5 witness: the classification at concrete states: a fatal first
attempt, and a two-state scenario where the head item fails retryably in
one state and fatally in the other. -/
theorem send_error_classification_witness :
    Transport.send_with_retries 3 (3 / 2) (fun _ => .fatalExc) =
      { result := .fatalError, attempts := 1, sleeps := [] } ∧
    process_send_queue_step
      (fun m => if m = .raw "a" then .retryableError else .fatalError) 11
      ⟨[.raw "a"], 4, [], [], true⟩ =
      (⟨[], 4, [], [(11, .raw "a")], true⟩, 0) ∧
    process_send_queue_step
      (fun m => if m = .raw "a" then .retryableError else .fatalError) 12
      ⟨[.raw "b"], 4, [], [], true⟩ =
      (⟨[], 4, [], [], true⟩, 0) :=
  send_error_classification 3 (3 / 2) (fun _ => .fatalExc)
    (fun m => if m = .raw "a" then .retryableError else .fatalError) 11 12
    ⟨[.raw "a"], 4, [], [], true⟩ ⟨[.raw "b"], 4, [], [], true⟩
    (.raw "a") (.raw "b") [] [] rfl rfl (by decide) rfl (by decide)

/-- Helper: `send_data` called while `accept_data` is false only writes the
freshly wrapped message to overflow storage. -/
theorem send_data_not_accepting (clock : Nat → Nat) (k : Nat) (st : NMState)
    (reqId : String) (data : MsgVal) (topic : String) (cb : Option Nat)
    (h : st.acceptData = false) :
    send_data clock k st reqId data topic cb =
      { st with storage := (persist_data st.storage (clock k)
          (MsgVal.wrapped reqId data topic cb)) } := by
  simp [send_data, h]

/-- Helper: the `_process_persistent_data("send")` loop never changes
`accept_data` when it is false (its `send_data` calls all take the
persist-directly branch). -/
theorem process_persistent_go_not_accepting (ids : Nat → String)
    (clock : Nat → Nat) :
    ∀ (snapshot : List (Nat × MsgVal)) (k i : Nat) (st : NMState),
      st.acceptData = false →
      (process_persistent_data_go ids clock k i snapshot st).acceptData
        = false := by
  intro snapshot
  induction snapshot with
  | nil =>
    intro k i st h
    simpa [process_persistent_data_go] using h
  | cons p rest ih =>
    intro k i st h
    obtain ⟨t, m⟩ := p
    rw [process_persistent_data_go]
    apply ih
    simp [send_data, h]

/-- Helper: one `_process_send_queue` iteration never touches
`accept_data`. -/
theorem process_send_queue_step_accept_data
    (send : MsgVal → Transport.SendResult) (t : Nat) (st : NMState) :
    ((process_send_queue_step send t st).1).acceptData = st.acceptData := by
  rcases hq : st.sendQueue with _ | ⟨m, rest⟩
  · simp [process_send_queue_step, hq]
  · rcases hs : send m <;> simp [process_send_queue_step, hq, hs]

/-- C6 counterexample: a manager in the not-accepting state with an empty
in-memory queue and one persisted overflow file.  The send-direction drain
(`_process_persistent_data("send")`) replays the file without error, and a
send-loop iteration observes the queue empty — yet `accept_data` is still
false afterwards: nothing in the code ever resets it to `True`, so direct
acceptance is never re-enabled. -/
theorem accept_data_never_lifted :
    (process_persistent_data (fun _ => "r") (fun _ => 7) 0
        ⟨[], 2, [], [(5, .raw "a")], false⟩).acceptData = false ∧
    (process_persistent_data (fun _ => "r") (fun _ => 7) 0
        ⟨[], 2, [], [(5, .raw "a")], false⟩).acceptData ≠ true ∧
    ((process_send_queue_step (fun _ => .sent) 9
        ⟨[], 2, [], [(5, .raw "a")], false⟩).1).acceptData = false := by
  decide

/-- C6 (amended): while `accept_data` is false, every `send_data` call
writes the newly wrapped message directly to an overflow file and leaves
the in-memory send queue and the callback registry unchanged; but the
not-accepting state is permanent — neither the send-direction drain
(`_process_persistent_data("send")`, which is moreover never invoked by any
loop and re-persists what it reads) nor the send-processing loop ever
resets `accept_data` to true. -/
theorem not_accepting_frame (clock : Nat → Nat) (k : Nat) (st : NMState)
    (reqId : String) (data : MsgVal) (topic : String) (cb : Option Nat)
    (ids : Nat → String) (send : MsgVal → Transport.SendResult) (t : Nat)
    (h : st.acceptData = false) :
    send_data clock k st reqId data topic cb =
      { st with storage := (persist_data st.storage (clock k)
          (MsgVal.wrapped reqId data topic cb)) } ∧
    (process_persistent_data ids clock k st).acceptData = false ∧
    ((process_send_queue_step send t st).1).acceptData = false := by
  refine ⟨send_data_not_accepting clock k st reqId data topic cb h, ?_, ?_⟩
  · exact process_persistent_go_not_accepting ids clock _ k 0 st h
  · rw [process_send_queue_step_accept_data, h]

/-- C6 witness: the frame conditions at a concrete not-accepting state. -/
theorem not_accepting_frame_witness :
    send_data (fun _ => 7) 0 ⟨[], 2, [("q", 1)], [(5, .raw "a")], false⟩
        "r2" (.raw "d") "general" (some 3) =
      { sendQueue := [], queueCap := 2, callbacks := [("q", 1)],
        storage := (persist_data [(5, .raw "a")] 7
          (MsgVal.wrapped "r2" (.raw "d") "general" (some 3))),
        acceptData := false } ∧
    (process_persistent_data (fun _ => "g") (fun _ => 7) 0
        ⟨[], 2, [("q", 1)], [(5, .raw "a")], false⟩).acceptData = false ∧
    ((process_send_queue_step (fun _ => .sent) 9
        ⟨[], 2, [("q", 1)], [(5, .raw "a")], false⟩).1).acceptData = false :=
  not_accepting_frame (fun _ => 7) 0
    ⟨[], 2, [("q", 1)], [(5, .raw "a")], false⟩ "r2" (.raw "d") "general"
    (some 3) (fun _ => "g") (fun _ => .sent) 9 rfl

/-- C2 counterexample: with callback 7 registered for request id "42",
processing two inbound responses that both carry id "42" triggers the
callback twice — not at most once — and the pending entry is still present
afterwards: `receive_data` never removes entries from `self.callbacks`. -/
theorem duplicate_response_double_invocation :
    process_messages ⟨[("42", 7)], []⟩
        [⟨some "42", none⟩, ⟨some "42", none⟩]
      = (⟨[("42", 7)], []⟩, [7, 7]) ∧
    (process_messages ⟨[("42", 7)], []⟩
        [⟨some "42", none⟩, ⟨some "42", none⟩]).2.count 7 = 2 ∧
    (process_messages ⟨[("42", 7)], []⟩
        [⟨some "42", none⟩, ⟨some "42", none⟩]).1.callbacks.lookup "42"
      = some 7 := by
  decide

/-- C2 (amended): `NetworkManager.receive_data` triggers the callback
registered for a request id once per inbound message carrying that id —
`n` duplicate responses cause exactly `n` invocations — and the registries
are never modified by inbound processing, so the pending entry survives
its terminal response. -/
theorem receive_data_invokes_per_message (st : RecvState) (rid : String)
    (c n : Nat) (h : st.callbacks.lookup rid = some c) :
    process_messages st (List.replicate n ⟨some rid, none⟩)
      = (st, List.replicate n c) := by
  have h1 : receive_data st ⟨some rid, none⟩ = (st, [c]) := by
    simp [receive_data, h]
  induction n with
  | zero => simp [process_messages]
  | succ n ih =>
    rw [List.replicate_succ, process_messages, h1, ih]
    simp [List.replicate_succ]

/-- C2 witness: three duplicates of the response for id "42" yield three
invocations of callback 7 and leave the registry untouched. -/
theorem receive_data_invokes_per_message_witness :
    process_messages ⟨[("42", 7)], []⟩
        (List.replicate 3 ⟨some "42", none⟩)
      = (⟨[("42", 7)], []⟩, List.replicate 3 7) :=
  receive_data_invokes_per_message ⟨[("42", 7)], []⟩ "42" 7 3 rfl

/-- C10 (code bug): `check_network_connectivity` crashes on every
non-empty endpoint list.  `netman.py` imports the socket module patched by
`socket_overload.py`, whose line 30 installs the zero-parameter factory
`settimeout` itself — not the wrapper it builds — as
`socket.socket.settimeout`; the method call `sock.settimeout(1)` then
passes two arguments to a zero-parameter function and raises `TypeError`
before any endpoint is probed, for any probe behaviour whatsoever.  Only
the empty list returns the documented `True`. -/
theorem connectivity_check_raises (probe : String × Nat → ProbeOutcome)
    (ep : String × Nat) (eps : List (String × Nat)) :
    check_network_connectivity probe (ep :: eps) = .error "TypeError" ∧
    check_network_connectivity probe [] = .ok true :=
  ⟨rfl, rfl⟩

end NetworkManager

namespace EventHook

/-- Helper: removing the first occurrence of `l` from `ls ++ [l]` when `l`
does not occur in `ls` removes exactly the appended copy. -/
theorem remove_first_append_self (l : Nat) (ls : List Nat) (h : l ∉ ls) :
    remove_first l (ls ++ [l]) = ls := by
  induction ls with
  | nil => simp [remove_first]
  | cons x rest ih =>
    simp only [List.mem_cons, not_or] at h
    have hx : ¬x = l := fun hxl => h.1 hxl.symm
    simp [remove_first, hx, ih h.2]

/-- C7 counterexample: with callbacks `[0, 1]` already registered under the
key, subscribing callback 0 again and then unsubscribing it does not
restore the prior table: `list.remove` deletes the FIRST occurrence of the
callback, so the list ends up reordered to `[1, 0]`. -/
theorem unsubscribe_reorders :
    unsubscribe (subscribe [(("t", "*", "*"), [0, 1])] 0 ("t", "*", "*")) 0
        ("t", "*", "*") ≠ [(("t", "*", "*"), [0, 1])] ∧
    unsubscribe (subscribe [(("t", "*", "*"), [0, 1])] 0 ("t", "*", "*")) 0
        ("t", "*", "*") = [(("t", "*", "*"), [1, 0])] := by
  decide

/-- C7 (amended): `unsubscribe` after `subscribe` under the same composite
key restores the exact prior table whenever the callback was not already
registered under that key (and the key, if present, holds a non-empty
list — an invariant the operations maintain); in particular a key whose
last callback is removed is deleted entirely, leaving no empty list.  When
the callback was already present, only the multiset of callbacks is
restored: the order may change, as the counterexample shows. -/
theorem subscribe_unsubscribe_roundtrip (xs : Table) (l : Nat) (k : Key)
    (h1 : l ∉ (get_key xs k).getD []) (h2 : get_key xs k ≠ some []) :
    unsubscribe (subscribe xs l k) l k = xs := by
  induction xs with
  | nil => simp [subscribe, unsubscribe, remove_first]
  | cons p rest ih =>
    obtain ⟨k', ls⟩ := p
    by_cases hk : k' = k
    · subst hk
      rw [get_key] at h1 h2
      simp only [if_pos rfl, Option.getD_some, ne_eq, Option.some.injEq,
        eq_self_iff_true, if_true] at h1 h2
      simp [subscribe, unsubscribe, remove_first_append_self l ls h1, h2]
    · rw [get_key] at h1 h2
      simp only [if_neg hk] at h1 h2
      simp [subscribe, unsubscribe, hk, ih h1 h2]

/-- C7 witness: the round trip at a table where the callback is fresh for
the key. -/
theorem subscribe_unsubscribe_roundtrip_witness :
    unsubscribe (subscribe [(("t", "*", "*"), [1, 2])] 0 ("t", "*", "*")) 0
        ("t", "*", "*") = [(("t", "*", "*"), [1, 2])] :=
  subscribe_unsubscribe_roundtrip [(("t", "*", "*"), [1, 2])] 0
    ("t", "*", "*") (by decide) (by decide)

/-- C8 counterexample: two listeners on topic "X"; the first raises.
`EventHook.notify` has no exception handling in its loop, so the exception
escapes `notify` and the second listener is never executed — contradicting
the claim that the exception is caught and the remaining callbacks still
run. -/
theorem notify_exception_escapes :
    notify (fun l => if l = 0 then .error "boom" else .ok ())
        [(("X", "*", "*"), [0, 1])] "X" "42" "g1"
      = ([0], some "boom") ∧
    1 ∉ (notify (fun l => if l = 0 then .error "boom" else .ok ())
        [(("X", "*", "*"), [0, 1])] "X" "42" "g1").1 ∧
    (notify (fun l => if l = 0 then .error "boom" else .ok ())
        [(("X", "*", "*"), [0, 1])] "X" "42" "g1").2 ≠ none := by
  decide

/-- Helper: the notify loop runs the error-free prefix, then the first
raising listener, and nothing after it. -/
theorem notify_run_stops_at_first_error (beh : Nat → Except String Unit) :
    ∀ (pre : List Nat) (l : Nat) (post : List Nat) (e : String),
      (∀ x ∈ pre, beh x = .ok ()) → beh l = .error e →
      notify_run beh (pre ++ l :: post) = (pre ++ [l], some e) := by
  intro pre
  induction pre with
  | nil =>
    intro l post e _ hl
    simp [notify_run, hl]
  | cons x rest ih =>
    intro l post e hpre hl
    have hx : beh x = .ok () := hpre x (by simp)
    simp [notify_run, hx, ih l post e (fun y hy => hpre y (by simp [hy])) hl]

/-- C8 (amended): `EventHook.notify` invokes the matching listeners in
registration order only up to the first one that raises: the earlier
listeners all run, the raiser's exception escapes `notify` to its caller,
and every later matching listener is skipped.  (No exception is caught or
logged inside `notify`.) -/
theorem notify_first_raiser_aborts (beh : Nat → Except String Unit)
    (xs : Table) (topic reqId group : String) (pre post : List Nat)
    (l : Nat) (e : String)
    (hls : get_listeners xs topic reqId group = pre ++ l :: post)
    (hpre : ∀ x ∈ pre, beh x = .ok ()) (hl : beh l = .error e) :
    notify beh xs topic reqId group = (pre ++ [l], some e) := by
  rw [notify, hls]
  exact notify_run_stops_at_first_error beh pre l post e hpre hl

/-- C8 witness: three listeners, the middle one raises: listener 0 runs,
listener 1 runs and raises, listener 2 is skipped, and the exception
escapes. -/
theorem notify_first_raiser_aborts_witness :
    notify (fun l => if l = 1 then .error "boom" else .ok ())
        [(("X", "*", "*"), [0, 1, 2])] "X" "7" "g"
      = ([0] ++ [1], some "boom") :=
  notify_first_raiser_aborts (fun l => if l = 1 then .error "boom" else .ok ())
    [(("X", "*", "*"), [0, 1, 2])] "X" "7" "g" [0] [2] 1 "boom"
    (by decide)
    (by intro x hx; simp only [List.mem_singleton] at hx; subst hx; rfl)
    rfl

end EventHook

namespace RpcRequest

/-- Helper: the id-matching pass ignores a push message (it has no
top-level `id`). -/
theorem match_id_pass_push (reqId sid : Nat) (s : Option Nat)
    (j : Option RMsg) :
    match_id_pass reqId true [push_msg sid] s j = .ok ([push_msg sid], s, j)
    := by
  simp [match_id_pass, push_msg]

/-- Helper: the subscription pass consumes a push message tagged with the
active subscription id, invoking the streaming handler once and
incrementing `update_nr`. -/
theorem sub_pass_push (sid k : Nat) (j : Option RMsg)
    (inv : List (RMsg × Nat)) :
    sub_pass streaming_handler (some sid) [push_msg sid] k j inv
      = ([], k + 1, j, inv ++ [(push_msg sid, k)]) := by
  simp [sub_pass, push_msg, streaming_handler]

/-- Helper: one loop iteration on a state holding exactly one matching push
message delivers it to the handler and leaves the queue empty. -/
theorem rpc_iteration_stream (reqId sid k : Nat) (inv : List (RMsg × Nat)) :
    rpc_iteration reqId true streaming_handler
        { queue := [push_msg sid], subId := some sid, updateNr := k,
          jsonBody := none, invocations := inv }
      = .ok { queue := [], subId := some sid, updateNr := k + 1,
              jsonBody := none, invocations := inv ++ [(push_msg sid, k)] }
    := by
  simp [rpc_iteration, match_id_pass_push, sub_pass_push]

/-- Helper: the first iteration of a handler-carrying `rpc_request` whose
queue holds the subscription reply: the reply is removed and its `result`
becomes the subscription id. -/
theorem rpc_iteration_promote (reqId sid : Nat) :
    rpc_iteration reqId true streaming_handler
        (init_state [subscribe_reply reqId sid])
      = .ok { queue := [], subId := some sid, updateNr := 0,
              jsonBody := none, invocations := [] } := by
  simp [rpc_iteration, init_state, match_id_pass, subscribe_reply, sub_pass]

/-- Helper: unfolding one consuming step of the loop. -/
theorem rpc_loop_cons (reqId : Nat) (hasHandler : Bool)
    (handler : RMsg → Nat → Option Nat → Option RMsg) (m : RMsg)
    (rest : List RMsg) (st st' : LoopState)
    (h : rpc_iteration reqId hasHandler handler st = .ok st')
    (hj : st'.jsonBody = none) :
    rpc_loop reqId hasHandler handler (m :: rest) st
      = rpc_loop reqId hasHandler handler rest
          { st' with queue := st'.queue ++ [m] } := by
  simp [rpc_loop, h, hj]

/-- Helper: the streaming invariant — with the subscription active, a
one-push queue and `m` further pushes incoming, the loop delivers every
push to the handler exactly once, numbering them consecutively, and never
clears the subscription id. -/
theorem rpc_loop_stream_invariant (reqId sid : Nat) :
    ∀ (m k : Nat) (inv : List (RMsg × Nat)),
      rpc_loop reqId true streaming_handler
          (List.replicate m (push_msg sid))
          { queue := [push_msg sid], subId := some sid, updateNr := k,
            jsonBody := none, invocations := inv }
        = .ok { queue := [], subId := some sid, updateNr := k + m + 1,
                jsonBody := none,
                invocations := inv ++ (List.range (m + 1)).map
                  (fun j => (push_msg sid, k + j)) } := by
  intro m
  induction m with
  | zero =>
    intro k inv
    show rpc_loop reqId true streaming_handler [] _ = _
    rw [rpc_loop, rpc_iteration_stream]
    simp [List.range_succ]
  | succ m ih =>
    intro k inv
    rw [List.replicate_succ,
      rpc_loop_cons reqId true streaming_handler (push_msg sid)
        (List.replicate m (push_msg sid)) _ _
        (rpc_iteration_stream reqId sid k inv) rfl]
    simp only [List.nil_append]
    rw [ih (k + 1) (inv ++ [(push_msg sid, k)])]
    have hr : (List.range (m + 1 + 1)).map (fun j => (push_msg sid, k + j))
        = (push_msg sid, k) :: (List.range (m + 1)).map
            (fun j => (push_msg sid, k + 1 + j)) := by
      rw [List.range_succ_eq_map, List.map_cons, List.map_map]
      simp only [Nat.add_zero, List.cons.injEq, true_and]
      apply List.map_congr_left
      intro j _
      simp only [Function.comp_apply]
      congr 1
      omega
    have harith : k + 1 + m + 1 = k + (m + 1) + 1 := by omega
    rw [harith, hr]
    simp [List.append_assoc]

/-- C3: a request issued with a result handler whose queue holds the
server's subscription reply for request id `reqId` with handle `sid`:
the reply is consumed (no message with the request id remains pending),
the state is promoted to subscription `sid`, and `n` subsequent
push-messages tagged `params.subscription = sid` invoke the handler
exactly `n` times — once per message, numbered `0 … n-1` — while the
subscription id persists across all deliveries. -/
theorem subscription_promotion_stream (reqId sid n : Nat) :
    rpc_loop reqId true streaming_handler
        (List.replicate n (push_msg sid))
        (init_state [subscribe_reply reqId sid])
      = .ok { queue := [], subId := some sid, updateNr := n,
              jsonBody := none,
              invocations := (List.range n).map
                (fun j => (push_msg sid, j)) } := by
  cases n with
  | zero =>
    show rpc_loop reqId true streaming_handler [] _ = _
    rw [rpc_loop, rpc_iteration_promote]
    simp
  | succ n =>
    rw [List.replicate_succ,
      rpc_loop_cons reqId true streaming_handler (push_msg sid)
        (List.replicate n (push_msg sid)) _ _
        (rpc_iteration_promote reqId sid) rfl]
    simp only [List.nil_append]
    rw [rpc_loop_stream_invariant reqId sid n 0 []]
    simp

end RpcRequest
